import Mathlib

/-!
Verification of the bulk-ingestion core of the route-quebec-worker repository.

The repository's four ingestion scripts each reimplement the same three
components, which are shallowly embedded here from the source
(src/scripts/ingest_montreal_opendata.py, the reference copy, with the
identical duplicates in ingest_digital_assets.py and
ingest_real_sign_photos.py):

* the Statement Builder `make_sql_insert` (quoting, escaping, NULL rules);
* the Batcher (the accumulate/flush loop of `ingest_poles_data` and
  `ingest_digital_assets`), embedded as `batchLoop` / `batches`;
* the Bulk Import Driver `d1_bulk_import` (init, staged upload with MD5
  etag comparison, ingestion trigger, unbounded poll loop), embedded as a
  function of an environment that scripts the remote endpoints' responses.

Network effects are embedded by passing the scripted responses of the
remote endpoints explicitly (`ApiEnv`); the unbounded `while True` poll
loop is embedded with explicit fuel, `none` meaning the loop has not
terminated within the given fuel. `hashlib.md5` is embedded as a full
executable MD5 implementation over byte lists.
-/

/-! ## Statement Builder (`make_sql_insert`) -/

/-- A scalar value of a record column, as the Python scripts pass them to
`make_sql_insert`: strings, ints, floats, bools, or `None`.  A float is
abstracted by the decimal text Python's `str()` produces for it (floating
point itself is not embedded; only the text matters to the builder). -/
inductive SqlValue where
  | str (s : String)
  | int (n : Int)
  | float (text : String)
  | bool (b : Bool)
  | null
deriving DecidableEq

/-- Python's `str(v)` on a supported scalar: identity on strings, decimal
form of ints, the carried text of floats, `True`/`False` for bools and
`None` for `None`. -/
def pyStr : SqlValue → String
  | .str s => s
  | .int n => toString n
  | .float t => t
  | .bool true => "True"
  | .bool false => "False"
  | .null => "None"

/-- Python's `str.replace` of a single quote by two single quotes,
character by character (a one-character pattern, so per-character
expansion is exact). -/
def escChars : List Char → List Char
  | [] => []
  | c :: cs => if c = '\'' then '\'' :: '\'' :: escChars cs else c :: escChars cs

/-- A one-character string holding a single quote. -/
def quoteCh : String := String.mk ['\'']

/-- `str(v).replace` lifted to `String`. -/
def pyEscape (s : String) : String := String.mk (escChars s.data)

/-- The per-value rendering inside `make_sql_insert`:
`f"'{str(v).replace(...)}'" if v is not None else "NULL"`. -/
def renderValue : SqlValue → String
  | .null => "NULL"
  | v => quoteCh ++ pyEscape (pyStr v) ++ quoteCh

/-- Comma-join, `", ".join(...)` in the source. -/
def joinComma (l : List String) : String := String.intercalate ", " l

/-- The column-name list of a record (`data.keys()`); a record is an
ordered association list, as Python dicts preserve insertion order. -/
def colsOf (data : List (String × SqlValue)) : List String := data.map (fun p => p.1)

/-- The rendered value list of a record (`data.values()` passed through
the quoting/NULL rendering). -/
def valsOf (data : List (String × SqlValue)) : List String :=
  data.map (fun p => renderValue p.2)

/-- `make_sql_insert(table_name, data)` from the source. -/
def make_sql_insert (table : String) (data : List (String × SqlValue)) : String :=
  "INSERT INTO " ++ table ++ " (" ++ joinComma (colsOf data) ++ ") VALUES (" ++
    joinComma (valsOf data) ++ ")"

/-- Modelled from the spec: parsing a rendered quoted literal back
(unquoting and halving doubled quotes).  Scans the characters after the
opening quote; a doubled quote yields one quote, the closing quote must
end the input, and a lone interior quote is rejected. -/
def parseInner : List Char → Option (List Char)
  | [] => none
  | c :: rest =>
    if c = '\'' then
      match rest with
      | [] => some []
      | c2 :: rest2 =>
        if c2 = '\'' then Option.map (fun l => '\'' :: l) (parseInner rest2) else none
    else Option.map (fun l => c :: l) (parseInner rest)

/-- Modelled from the spec: the full literal parser, requiring an opening
quote then delegating to `parseInner`. -/
def parseSqlLiteral (s : String) : Option String :=
  match s.data with
  | c :: rest => if c = '\'' then Option.map String.mk (parseInner rest) else none
  | [] => none

/-! ## Batcher -/

/-- Concatenation of a list of batches. -/
def joinAll : List (List α) → List α
  | [] => []
  | l :: ls => l ++ joinAll ls

/-- The batching loop shared by the ingestion functions: each statement is
appended to the current buffer; once the buffer length reaches the batch
size it is submitted and the buffer restarts empty; a non-empty final
buffer is submitted by the end-of-input flush (`if sql_statements_batch:`).
Returns the submitted batches in submission order. -/
def batchLoop (B : Nat) (buf : List String) : List String → List (List String)
  | [] => if buf = [] then [] else [buf]
  | x :: xs =>
    let buf' := buf ++ [x]
    if B ≤ buf'.length then buf' :: batchLoop B [] xs else batchLoop B buf' xs

/-- The batches the Batcher submits for an input sequence of statements,
starting from an empty buffer. -/
def batches (B : Nat) (stmts : List String) : List (List String) :=
  batchLoop B [] stmts

/-! ## MD5 (embedding of `hashlib.md5(...).hexdigest()`) -/

/-- Two to the thirty-second power. -/
def m32 : Nat := 4294967296

/-- Bitwise complement within 32 bits (arguments are kept below `m32`). -/
def bnot32 (x : Nat) : Nat := 4294967295 - x

/-- Left rotation of a 32-bit word. -/
def rotl32 (x s : Nat) : Nat := (x * 2 ^ s + x / 2 ^ (32 - s)) % m32

/-- MD5 round function F. -/
def md5F (b c d : Nat) : Nat := (b &&& c) ||| (bnot32 b &&& d)

/-- MD5 round function G. -/
def md5G (b c d : Nat) : Nat := (d &&& b) ||| (bnot32 d &&& c)

/-- MD5 round function H. -/
def md5H (b c d : Nat) : Nat := b ^^^ c ^^^ d

/-- MD5 round function I. -/
def md5I (b c d : Nat) : Nat := c ^^^ (b ||| bnot32 d)

/-- The 64 MD5 sine-derived constants. -/
def md5K : List Nat :=
  [0xd76aa478, 0xe8c7b756, 0x242070db, 0xc1bdceee,
   0xf57c0faf, 0x4787c62a, 0xa8304613, 0xfd469501,
   0x698098d8, 0x8b44f7af, 0xffff5bb1, 0x895cd7be,
   0x6b901122, 0xfd987193, 0xa679438e, 0x49b40821,
   0xf61e2562, 0xc040b340, 0x265e5a51, 0xe9b6c7aa,
   0xd62f105d, 0x02441453, 0xd8a1e681, 0xe7d3fbc8,
   0x21e1cde6, 0xc33707d6, 0xf4d50d87, 0x455a14ed,
   0xa9e3e905, 0xfcefa3f8, 0x676f02d9, 0x8d2a4c8a,
   0xfffa3942, 0x8771f681, 0x6d9d6122, 0xfde5380c,
   0xa4beea44, 0x4bdecfa9, 0xf6bb4b60, 0xbebfbc70,
   0x289b7ec6, 0xeaa127fa, 0xd4ef3085, 0x04881d05,
   0xd9d4d039, 0xe6db99e5, 0x1fa27cf8, 0xc4ac5665,
   0xf4292244, 0x432aff97, 0xab9423a7, 0xfc93a039,
   0x655b59c3, 0x8f0ccc92, 0xffeff47d, 0x85845dd1,
   0x6fa87e4f, 0xfe2ce6e0, 0xa3014314, 0x4e0811a1,
   0xf7537e82, 0xbd3af235, 0x2ad7d2bb, 0xeb86d391]

/-- The 64 MD5 per-round left-rotation amounts. -/
def md5S : List Nat :=
  [7, 12, 17, 22, 7, 12, 17, 22, 7, 12, 17, 22, 7, 12, 17, 22,
   5, 9, 14, 20, 5, 9, 14, 20, 5, 9, 14, 20, 5, 9, 14, 20,
   4, 11, 16, 23, 4, 11, 16, 23, 4, 11, 16, 23, 4, 11, 16, 23,
   6, 10, 15, 21, 6, 10, 15, 21, 6, 10, 15, 21, 6, 10, 15, 21]

/-- One of the 64 MD5 steps on the running state, given the 16 message
words of the current block. -/
def md5Step (M : List Nat) (st : Nat × Nat × Nat × Nat) (i : Nat) : Nat × Nat × Nat × Nat :=
  let a := st.1
  let b := st.2.1
  let c := st.2.2.1
  let d := st.2.2.2
  let f := if i < 16 then md5F b c d
           else if i < 32 then md5G b c d
           else if i < 48 then md5H b c d
           else md5I b c d
  let g := if i < 16 then i
           else if i < 32 then (5 * i + 1) % 16
           else if i < 48 then (3 * i + 5) % 16
           else (7 * i) % 16
  let tmp := (a + f + md5K.getD i 0 + M.getD g 0) % m32
  (d, (b + rotl32 tmp (md5S.getD i 0)) % m32, b, c)

/-- Processing of one 512-bit block: 64 steps, then addition into the
incoming state. -/
def md5Block (st : Nat × Nat × Nat × Nat) (M : List Nat) : Nat × Nat × Nat × Nat :=
  let r := (List.range 64).foldl (md5Step M) st
  ((st.1 + r.1) % m32, (st.2.1 + r.2.1) % m32,
   (st.2.2.1 + r.2.2.1) % m32, (st.2.2.2 + r.2.2.2) % m32)

/-- A 64-bit number as eight little-endian bytes. -/
def le8 (n : Nat) : List Nat :=
  [n % 256, n / 256 % 256, n / 65536 % 256, n / 16777216 % 256,
   n / 4294967296 % 256, n / 1099511627776 % 256,
   n / 281474976710656 % 256, n / 72057594037927936 % 256]

/-- A 32-bit word as four little-endian bytes. -/
def le4 (n : Nat) : List Nat := [n % 256, n / 256 % 256, n / 65536 % 256, n / 16777216 % 256]

/-- MD5 padding: a 0x80 byte, zeros to 56 mod 64, then the bit length as
a little-endian 64-bit number. -/
def md5Pad (bytes : List Nat) : List Nat :=
  let len := bytes.length
  bytes ++ 128 :: List.replicate ((120 - (len + 1) % 64) % 64) 0 ++
    le8 ((8 * len) % 18446744073709551616)

/-- Grouping of four little-endian bytes into each of the 16 words of a
block. -/
def toWords : List Nat → List Nat
  | b0 :: b1 :: b2 :: b3 :: rest => (b0 + 256 * b1 + 65536 * b2 + 16777216 * b3) :: toWords rest
  | _ => []

/-- Splitting a (padded) byte list into 64-byte blocks; the first argument
is structural fuel (the list length bounds the block count, so the fuel
never runs out on the actual argument). -/
def chunksAux : Nat → List Nat → List (List Nat)
  | 0, _ => []
  | _, [] => []
  | fuel + 1, x :: xs => (x :: xs.take 63) :: chunksAux fuel (xs.drop 63)

/-- Splitting a (padded) byte list into 64-byte blocks. -/
def chunks64 (l : List Nat) : List (List Nat) := chunksAux l.length l

/-- The MD5 initial state A, B, C, D. -/
def md5Init : Nat × Nat × Nat × Nat := (1732584193, 4023233417, 2562383102, 271733878)

/-- The 16 digest bytes of a byte list. -/
def md5Bytes (bytes : List Nat) : List Nat :=
  let fin := (chunks64 (md5Pad bytes)).foldl (fun st blk => md5Block st (toWords blk)) md5Init
  le4 fin.1 ++ le4 fin.2.1 ++ le4 fin.2.2.1 ++ le4 fin.2.2.2

/-- Lowercase hexadecimal digit of a number below 16. -/
def hexDigit (n : Nat) : Char :=
  if n < 10 then Char.ofNat (48 + n) else Char.ofNat (87 + n)

/-- `hashlib.md5(bytes).hexdigest()`: the 32-character lowercase
hexadecimal digest. -/
def md5hex (bytes : List Nat) : String :=
  String.mk (joinAll ((md5Bytes bytes).map (fun b => [hexDigit (b / 16), hexDigit (b % 16)])))

/-- UTF-8 encoding of one character. -/
def encodeUtf8Char (c : Char) : List Nat :=
  let n := c.toNat
  if n < 128 then [n]
  else if n < 2048 then [192 + n / 64, 128 + n % 64]
  else if n < 65536 then [224 + n / 4096, 128 + n / 64 % 64, 128 + n % 64]
  else [240 + n / 262144, 128 + n / 4096 % 64, 128 + n / 64 % 64, 128 + n % 64]

/-- `s.encode("utf-8")` as a byte list. -/
def utf8Bytes (s : String) : List Nat := joinAll (s.data.map encodeUtf8Char)

/-! ## Bulk Import Driver (`d1_bulk_import`) -/

/-- The payload blob: `";\n".join(sql_statements) + ";"`. -/
def fullSqlCommand (stmts : List String) : String :=
  String.intercalate ";\n" stmts ++ ";"

/-- The checksum the driver computes over the payload:
`hashlib.md5(full_sql_command.encode("utf-8")).hexdigest()`. -/
def payloadHash (stmts : List String) : String :=
  md5hex (utf8Bytes (fullSqlCommand stmts))

/-- Outcome of one JSON-decoded POST to the control plane: the decoded
body, a network-layer/HTTP-status failure (`requests` raising a
`RequestException`, including `raise_for_status`), or a body that fails
to decode (`json.JSONDecodeError`). -/
inductive Resp (α : Type) where
  | ok (a : α)
  | reqError
  | decodeError
deriving DecidableEq

/-- Outcome of the staging `PUT`: the raw `ETag` response header (the
empty string when absent, per `headers.get("ETag", "")`), or a
network-layer failure.  No JSON decoding happens on this call. -/
inductive PutResp where
  | ok (rawEtag : String)
  | reqError
deriving DecidableEq

/-- Decoded body of the `init` response: `result.upload_url` and
`result.filename`. -/
structure InitResult where
  upload_url : String
  filename : String
deriving DecidableEq

/-- Decoded body of the `ingest` response: `result.at_bookmark`. -/
structure IngestResult where
  at_bookmark : String
deriving DecidableEq

/-- Decoded `result` object of one poll response. -/
structure PollResult where
  success : Bool
  error : String
deriving DecidableEq

/-- Scripted responses of the remote endpoints for one driver invocation:
the init POST, the staging PUT, the ingest POST, and the k-th poll POST. -/
structure ApiEnv where
  initResp : Resp InitResult
  putResp : PutResp
  ingestResp : Resp IngestResult
  pollResps : Nat → Resp PollResult

/-- The exact sentinel error string tested by the poll loop. -/
def sentinelMsg : String := "Not currently importing anything."

/-- How the poll loop ends: the `break` with a final poll result, or an
exception raised by a poll request or its decoding. -/
inductive PollOut where
  | finished (r : PollResult)
  | netFail
  | decFail
deriving DecidableEq

/-- The `while True` poll loop, with fuel: `none` means the loop has not
terminated within `fuel` iterations.  On termination, also returns the
number of poll requests issued.  The loop body mirrors the source: a
request (which may raise), a decode (which may raise), then
`if poll_result["success"] or (not ... and error == sentinel): break`. -/
def pollLoop (polls : Nat → Resp PollResult) : Nat → Nat → Option (PollOut × Nat)
  | _, 0 => none
  | k, fuel + 1 =>
    match polls k with
    | .reqError => some (.netFail, 1)
    | .decodeError => some (.decFail, 1)
    | .ok r =>
      if r.success || (!r.success && r.error == sentinelMsg) then some (.finished r, 1)
      else
        match pollLoop polls (k + 1) fuel with
        | none => none
        | some (o, n) => some (o, n + 1)

/-- The protocol requests the driver issues, in order. -/
inductive Phase where
  | initReq
  | uploadPut
  | ingestReq
  | pollReq
deriving DecidableEq

/-- The terminal observable of one `d1_bulk_import` call (the function
itself returns `None`; its terminal print distinguishes these cases):
the early return on an empty statement list, the success print, the
failure print with the final poll error, and the three `except` handlers
(`RequestException`, `JSONDecodeError`, generic `Exception` — the latter
reached by the ETag-mismatch `raise`). -/
inductive ImportOutcome where
  | noStatements
  | importSuccess
  | importFailed (error : String)
  | requestError
  | decodeError
  | unexpectedError (msg : String)
deriving DecidableEq

/-- Terminal outcome of a driver call together with the protocol requests
it issued. -/
structure RunResult where
  outcome : ImportOutcome
  trace : List Phase
deriving DecidableEq

/-- Python's `.replace` of every double-quote character by nothing, as
applied to the staging `ETag` header. -/
def stripDquotes (s : String) : String :=
  String.mk (s.data.filter (fun c => c ≠ '"'))

/-- `d1_bulk_import(table_name, sql_statements)` from the source, over
scripted remote responses and poll fuel.  `none` means the poll loop has
not terminated within the fuel.  The table name only feeds prints and is
omitted; the init body's `upload_url`/`filename` and the ingest body's
bookmark are consumed exactly as in the source but the scripted
environment already addresses each request, so only their presence
matters. -/
def d1_bulk_import (env : ApiEnv) (stmts : List String) (fuel : Nat) : Option RunResult :=
  if stmts = [] then some ⟨.noStatements, []⟩
  else
    match env.initResp with
    | .reqError => some ⟨.requestError, [.initReq]⟩
    | .decodeError => some ⟨.decodeError, [.initReq]⟩
    | .ok _initData =>
      match env.putResp with
      | .reqError => some ⟨.requestError, [.initReq, .uploadPut]⟩
      | .ok rawEtag =>
        let hashStr := payloadHash stmts
        let r2Etag := stripDquotes rawEtag
        if r2Etag = hashStr then
          match env.ingestResp with
          | .reqError => some ⟨.requestError, [.initReq, .uploadPut, .ingestReq]⟩
          | .decodeError => some ⟨.decodeError, [.initReq, .uploadPut, .ingestReq]⟩
          | .ok _ingestData =>
            match pollLoop env.pollResps 0 fuel with
            | none => none
            | some (.netFail, n) =>
              some ⟨.requestError, [.initReq, .uploadPut, .ingestReq] ++ List.replicate n .pollReq⟩
            | some (.decFail, n) =>
              some ⟨.decodeError, [.initReq, .uploadPut, .ingestReq] ++ List.replicate n .pollReq⟩
            | some (.finished r, n) =>
              if r.success then
                some ⟨.importSuccess, [.initReq, .uploadPut, .ingestReq] ++ List.replicate n .pollReq⟩
              else
                some ⟨.importFailed r.error, [.initReq, .uploadPut, .ingestReq] ++ List.replicate n .pollReq⟩
        else
          some ⟨.unexpectedError ("ETag mismatch during R2 upload. Expected " ++ hashStr ++
            ", got " ++ r2Etag), [.initReq, .uploadPut]⟩

/-- The caller loop: each batch is handed to the driver in order,
unconditionally — `d1_bulk_import` never raises (it catches every
exception), so the callers' loops always proceed to the next batch. -/
def runBatches (fuel : Nat) : List (ApiEnv × List String) → List (Option RunResult)
  | [] => []
  | (env, b) :: rest => d1_bulk_import env b fuel :: runBatches fuel rest

/-- A poll response that keeps the loop going: it decodes, reports
`success = false`, and its error is not the sentinel. -/
def nonTerminalAt (polls : Nat → Resp PollResult) (i : Nat) : Prop :=
  ∃ r, polls i = .ok r ∧ r.success = false ∧ r.error ≠ sentinelMsg

/-- Environment whose very first init request fails at the network layer. -/
def c2Env : ApiEnv := ⟨.reqError, .reqError, .reqError, fun _ => .reqError⟩

/-- Environment whose staging upload echoes a tag that is not the MD5 of
any payload (it is not even 32 characters). -/
def c3Env : ApiEnv := ⟨.ok ⟨"u", "f"⟩, .ok "x", .reqError, fun _ => .reqError⟩

/-- Environment that answers every phase correctly and then reports the
sentinel "Not currently importing anything." on the first poll. -/
def c1Env : ApiEnv :=
  ⟨.ok ⟨"u", "f"⟩, .ok (payloadHash ["S"]), .ok ⟨"b"⟩, fun _ => .ok ⟨false, sentinelMsg⟩⟩

/-- Environment that answers every phase correctly and then reports an
in-progress, non-sentinel poll status forever. -/
def c5Env : ApiEnv :=
  ⟨.ok ⟨"u", "f"⟩, .ok (payloadHash ["S"]), .ok ⟨"b"⟩, fun _ => .ok ⟨false, "in progress"⟩⟩

/-! ## Helper lemmas -/

theorem strDataAppend (a b : String) : (a ++ b).data = a.data ++ b.data := by
  cases a
  cases b
  rfl

theorem parseInner_escChars (l : List Char) :
    parseInner (escChars l ++ [ '\'' ]) = some l := by
  induction l with
  | nil =>
    rw [escChars, List.nil_append, parseInner.eq_def]
    simp
  | cons c cs ih =>
    by_cases hc : c = '\''
    · subst hc
      rw [escChars, if_pos rfl, List.cons_append, List.cons_append, parseInner.eq_def]
      simp [ih]
    · rw [escChars, if_neg hc, List.cons_append, parseInner.eq_def]
      simp [hc, ih]

theorem batchLoop_cons (B : Nat) (buf : List String) (x : String) (xs : List String) :
    batchLoop B buf (x :: xs) =
      if B ≤ buf.length + 1 then (buf ++ [x]) :: batchLoop B [] xs
      else batchLoop B (buf ++ [x]) xs := by
  have hlen : (buf ++ [x]).length = buf.length + 1 := by simp
  rw [batchLoop]
  simp only [hlen]

theorem joinAll_batchLoop (B : Nat) :
    ∀ (l buf : List String), joinAll (batchLoop B buf l) = buf ++ l := by
  intro l
  induction l with
  | nil =>
    intro buf
    by_cases h : buf = [] <;> simp [batchLoop, h, joinAll]
  | cons x xs ih =>
    intro buf
    rw [batchLoop_cons]
    by_cases h : B ≤ buf.length + 1
    · rw [if_pos h]
      simp [joinAll, ih]
    · rw [if_neg h]
      simp [ih]

theorem batchLoop_sizes (B : Nat) :
    ∀ (l buf : List String), buf.length < B → ∀ b ∈ batchLoop B buf l, b.length ≤ B := by
  intro l
  induction l with
  | nil =>
    intro buf hb b hmem
    by_cases h : buf = [] <;> simp [batchLoop, h] at hmem
    subst hmem
    omega
  | cons x xs ih =>
    intro buf hb b hmem
    rw [batchLoop_cons] at hmem
    by_cases h : B ≤ buf.length + 1
    · rw [if_pos h] at hmem
      rcases List.mem_cons.mp hmem with rfl | hmem2
      · simp only [List.length_append, List.length_cons, List.length_nil]
        omega
      · exact ih [] (by simp only [List.length_nil]; omega) b hmem2
    · rw [if_neg h] at hmem
      have hlt : (buf ++ [x]).length < B := by
        simp only [List.length_append, List.length_cons, List.length_nil]
        omega
      exact ih (buf ++ [x]) hlt b hmem

theorem batchLoop_count (B : Nat) (hB : 0 < B) :
    ∀ (l buf : List String), buf.length < B →
      (batchLoop B buf l).length = (buf.length + l.length + B - 1) / B := by
  intro l
  induction l with
  | nil =>
    intro buf hb
    by_cases h : buf = []
    · subst h
      have hempty : batchLoop B [] [] = [] := rfl
      rw [hempty]
      simp only [List.length_nil]
      rw [Nat.div_eq_of_lt (by omega)]
    · simp only [batchLoop, if_neg h, List.length_cons, List.length_nil]
      have h1 : 1 ≤ buf.length := List.length_pos.mpr h
      have h2 : buf.length + 0 + B - 1 = (buf.length - 1) + B := by omega
      rw [h2, Nat.add_div_right _ hB, Nat.div_eq_of_lt (by omega)]
  | cons x xs ih =>
    intro buf hb
    rw [batchLoop_cons]
    by_cases h : B ≤ buf.length + 1
    · rw [if_pos h]
      have hBeq : buf.length + 1 = B := by omega
      simp only [List.length_cons]
      rw [ih [] (by simp only [List.length_nil]; omega)]
      have h3 : buf.length + (xs.length + 1) + B - 1 =
          (List.length ([] : List String) + xs.length + B - 1) + B := by
        simp only [List.length_nil]
        omega
      rw [h3, Nat.add_div_right _ hB]
    · rw [if_neg h]
      have hlt : (buf ++ [x]).length < B := by
        simp only [List.length_append, List.length_cons, List.length_nil]
        omega
      rw [ih (buf ++ [x]) hlt]
      have h4 : (buf ++ [x]).length + xs.length + B - 1 =
          buf.length + (x :: xs).length + B - 1 := by
        simp only [List.length_append, List.length_cons, List.length_nil]
        omega
      rw [h4]

theorem pollLoop_step_nonterminal (polls : Nat → Resp PollResult) (k fuel : Nat)
    (h : nonTerminalAt polls k) :
    pollLoop polls k (fuel + 1) =
      match pollLoop polls (k + 1) fuel with
      | none => none
      | some (o, n) => some (o, n + 1) := by
  obtain ⟨r, hr, hs, he⟩ := h
  rw [pollLoop]
  simp [hr, hs, he]

theorem pollLoop_none_of_all_nonterminal (polls : Nat → Resp PollResult)
    (h : ∀ i, nonTerminalAt polls i) :
    ∀ fuel k, pollLoop polls k fuel = none := by
  intro fuel
  induction fuel with
  | zero => intro k; rfl
  | succ n ih =>
    intro k
    rw [pollLoop_step_nonterminal polls k n (h k), ih (k + 1)]

theorem pollLoop_exit (polls : Nat → Resp PollResult) :
    ∀ (k start fuel : Nat), k < fuel →
      (∀ i, i < k → nonTerminalAt polls (start + i)) →
      ((polls (start + k) = .reqError → pollLoop polls start fuel = some (.netFail, k + 1)) ∧
       (polls (start + k) = .decodeError → pollLoop polls start fuel = some (.decFail, k + 1)) ∧
       (∀ r, polls (start + k) = .ok r → (r.success = true ∨ r.error = sentinelMsg) →
          pollLoop polls start fuel = some (.finished r, k + 1))) := by
  intro k
  induction k with
  | zero =>
    intro start fuel hf _
    obtain ⟨m, rfl⟩ : ∃ m, fuel = m + 1 := ⟨fuel - 1, by omega⟩
    refine ⟨?_, ?_, ?_⟩
    · intro h
      have h0 : polls start = .reqError := by simpa using h
      rw [pollLoop]
      simp [h0]
    · intro h
      have h0 : polls start = .decodeError := by simpa using h
      rw [pollLoop]
      simp [h0]
    · intro r h hterm
      have h0 : polls start = .ok r := by simpa using h
      rcases hterm with hs | he
      · rw [pollLoop]
        simp [h0, hs]
      · rw [pollLoop]
        simp [h0, he]
  | succ k ih =>
    intro start fuel hf hnt
    obtain ⟨m, rfl⟩ : ∃ m, fuel = m + 1 := ⟨fuel - 1, by omega⟩
    have hnt0 : nonTerminalAt polls start := by
      have := hnt 0 (by omega)
      simpa using this
    have hstep := pollLoop_step_nonterminal polls start m hnt0
    have hshift : ∀ i, i < k → nonTerminalAt polls (start + 1 + i) := by
      intro i hi
      have e : start + 1 + i = start + (i + 1) := by omega
      rw [e]
      exact hnt (i + 1) (by omega)
    have ihs := ih (start + 1) m (by omega) hshift
    have harith : start + 1 + k = start + (k + 1) := by omega
    refine ⟨?_, ?_, ?_⟩
    · intro h
      rw [hstep, ihs.1 (by rw [harith]; exact h)]
    · intro h
      rw [hstep, ihs.2.1 (by rw [harith]; exact h)]
    · intro r h hterm
      rw [hstep, ihs.2.2 r (by rw [harith]; exact h) hterm]

set_option maxRecDepth 8192

/-! ## Claims -/

/-- C4: for every sequence of N statements fed to the batching loop with
batch size B (B positive, as in the source: 100 or 1000), the Batcher
submits exactly ⌈N/B⌉ batches (here written `(N + B - 1) / B`), each of
size at most B, the in-order concatenation of the submitted batches is
the original input sequence, and hence every statement is submitted
exactly once (the count of each statement over all submitted batches
equals its count in the input); the final partial batch is the
end-of-input flush. -/
theorem batcher_partitions_input (B : Nat) (stmts : List String) (hB : 0 < B) :
    (batches B stmts).length = (stmts.length + B - 1) / B ∧
    (∀ b ∈ batches B stmts, b.length ≤ B) ∧
    joinAll (batches B stmts) = stmts ∧
    (∀ s : String, (joinAll (batches B stmts)).count s = stmts.count s) := by
  simp only [batches]
  have hempty : ([] : List String).length < B := by
    simp only [List.length_nil]
    omega
  refine ⟨?_, batchLoop_sizes B stmts [] hempty, joinAll_batchLoop B stmts [], ?_⟩
  · have hc := batchLoop_count B hB stmts [] hempty
    simpa using hc
  · intro s
    rw [joinAll_batchLoop, List.nil_append]

/-- Witness for C4 at three statements and batch size two: two batches,
sizes two and one. -/
theorem batcher_partitions_input_witness :
    (batches 2 ["a", "b", "c"]).length = (["a", "b", "c"].length + 2 - 1) / 2 ∧
    joinAll (batches 2 ["a", "b", "c"]) = ["a", "b", "c"] ∧
    (joinAll (batches 2 ["a", "b", "c"])).count "b" = ["a", "b", "c"].count "b" :=
  (fun h => ⟨h.1, h.2.2.1, h.2.2.2 "b"⟩)
    (batcher_partitions_input 2 ["a", "b", "c"] (by decide))

/-- C6: for every record with a null value in some column, the statement
built by `make_sql_insert` is the INSERT text over the comma-joined
column names and rendered values, the rendered value at that column's
position is the unquoted literal `NULL`, and that literal is neither the
quoted string holding `None` nor the quoted string holding `null`. -/
theorem null_renders_as_null_literal (table : String) (data : List (String × SqlValue))
    (i : Nat) (col : String) (h : data[i]? = some (col, SqlValue.null)) :
    make_sql_insert table data =
      "INSERT INTO " ++ table ++ " (" ++ joinComma (colsOf data) ++ ") VALUES (" ++
        joinComma (valsOf data) ++ ")" ∧
    (valsOf data)[i]? = some "NULL" ∧
    ("NULL" : String) ≠ quoteCh ++ "None" ++ quoteCh ∧
    ("NULL" : String) ≠ quoteCh ++ "null" ++ quoteCh := by
  refine ⟨rfl, ?_, by decide, by decide⟩
  simp only [valsOf, List.getElem?_map, h, Option.map_some']
  rfl

/-- Witness for C6 on a two-column record whose second column is null. -/
theorem null_renders_as_null_literal_witness :
    make_sql_insert "poles" [("pole_id", SqlValue.str "A"), ("x_coord", SqlValue.null)] =
      "INSERT INTO " ++ "poles" ++ " (" ++
        joinComma (colsOf [("pole_id", SqlValue.str "A"), ("x_coord", SqlValue.null)]) ++
        ") VALUES (" ++
        joinComma (valsOf [("pole_id", SqlValue.str "A"), ("x_coord", SqlValue.null)]) ++ ")" ∧
    (valsOf [("pole_id", SqlValue.str "A"), ("x_coord", SqlValue.null)])[1]? = some "NULL" ∧
    ("NULL" : String) ≠ quoteCh ++ "None" ++ quoteCh ∧
    ("NULL" : String) ≠ quoteCh ++ "null" ++ quoteCh :=
  null_renders_as_null_literal "poles" [("pole_id", SqlValue.str "A"), ("x_coord", SqlValue.null)]
    1 "x_coord" rfl

/-- C7: for every string value, the literal the Statement Builder renders
(opening quote, embedded quotes doubled, closing quote) parses back —
`parseSqlLiteral` both accepts it (syntactic validity) and returns
exactly the original string (round trip). -/
theorem quoted_literal_roundtrip (s : String) :
    parseSqlLiteral (renderValue (SqlValue.str s)) = some s := by
  cases s with
  | mk l =>
    have hdata : (renderValue (SqlValue.str ⟨l⟩)).data = '\'' :: (escChars l ++ [ '\'' ]) := by
      show (quoteCh ++ pyEscape ⟨l⟩ ++ quoteCh).data = _
      rw [strDataAppend, strDataAppend]
      rfl
    simp only [parseSqlLiteral, hdata]
    simp [parseInner_escChars]

/-- C10: every non-null scalar is rendered as a single-quoted literal of
its `str()` text with embedded quotes doubled — the rendering starts and
ends with a quote character — and in particular boolean true renders as
the quoted text `True` and integer five as the quoted text `5`, never as
the unquoted texts. -/
theorem nonnull_renders_as_quoted_text (v : SqlValue) (h : v ≠ SqlValue.null) :
    renderValue v = quoteCh ++ pyEscape (pyStr v) ++ quoteCh ∧
    (renderValue v).data.head? = some '\'' ∧
    (renderValue v).data.getLast? = some '\'' ∧
    renderValue (SqlValue.bool true) = quoteCh ++ "True" ++ quoteCh ∧
    renderValue (SqlValue.int 5) = quoteCh ++ "5" ++ quoteCh ∧
    renderValue (SqlValue.bool true) ≠ "True" ∧
    renderValue (SqlValue.int 5) ≠ "5" := by
  have h1 : renderValue v = quoteCh ++ pyEscape (pyStr v) ++ quoteCh := by
    cases v with
    | null => exact absurd rfl h
    | str s => rfl
    | int n => rfl
    | float t => rfl
    | bool b => rfl
  refine ⟨h1, ?_, ?_, by decide, by decide, by decide, by decide⟩
  · rw [h1, strDataAppend, strDataAppend]
    rfl
  · rw [h1, strDataAppend]
    rw [show quoteCh.data = [ '\'' ] from rfl]
    simp [List.getLast?_concat]

/-- Witness for C10 at the integer five. -/
theorem nonnull_renders_as_quoted_text_witness :
    renderValue (SqlValue.int 5) = quoteCh ++ pyEscape (pyStr (SqlValue.int 5)) ++ quoteCh ∧
    (renderValue (SqlValue.int 5)).data.head? = some '\'' ∧
    (renderValue (SqlValue.int 5)).data.getLast? = some '\'' ∧
    renderValue (SqlValue.bool true) = quoteCh ++ "True" ++ quoteCh ∧
    renderValue (SqlValue.int 5) = quoteCh ++ "5" ++ quoteCh ∧
    renderValue (SqlValue.bool true) ≠ "True" ∧
    renderValue (SqlValue.int 5) ≠ "5" :=
  nonnull_renders_as_quoted_text (SqlValue.int 5) (by decide)

/-- C9: invoked with an empty statement list, the driver returns
immediately with the no-statements outcome and an empty request trace —
no init request, no staging upload, no ingestion trigger and no polling —
for every environment and every fuel. -/
theorem empty_batch_returns_immediately (env : ApiEnv) (fuel : Nat) :
    d1_bulk_import env [] fuel = some ⟨.noStatements, []⟩ := rfl

/-- C3: whenever the staging upload's echoed tag (after stripping double
quotes, as the source does) differs from the MD5 checksum of the payload,
the driver ends in the ETag-mismatch failure outcome (the raised
exception caught by the generic handler) with a trace containing only the
init request and the staging upload: the ingestion trigger and the poll
phase never execute. -/
theorem etag_mismatch_fails_before_trigger (env : ApiEnv) (stmts : List String) (fuel : Nat)
    (initData : InitResult) (rawEtag : String)
    (hne : stmts ≠ [])
    (hInit : env.initResp = .ok initData)
    (hPut : env.putResp = .ok rawEtag)
    (hMis : stripDquotes rawEtag ≠ payloadHash stmts) :
    d1_bulk_import env stmts fuel =
      some ⟨.unexpectedError ("ETag mismatch during R2 upload. Expected " ++
        payloadHash stmts ++ ", got " ++ stripDquotes rawEtag), [.initReq, .uploadPut]⟩ ∧
    Phase.ingestReq ∉ [Phase.initReq, Phase.uploadPut] ∧
    Phase.pollReq ∉ [Phase.initReq, Phase.uploadPut] := by
  refine ⟨?_, by decide, by decide⟩
  simp [d1_bulk_import, hne, hInit, hPut, hMis]

/-- Witness for C3: a staging echo of `x` against the MD5 of the one
statement `S`. -/
theorem etag_mismatch_fails_before_trigger_witness :
    d1_bulk_import c3Env ["S"] 1 =
      some ⟨.unexpectedError ("ETag mismatch during R2 upload. Expected " ++
        payloadHash ["S"] ++ ", got " ++ stripDquotes "x"), [.initReq, .uploadPut]⟩ ∧
    Phase.ingestReq ∉ [Phase.initReq, Phase.uploadPut] ∧
    Phase.pollReq ∉ [Phase.initReq, Phase.uploadPut] :=
  etag_mismatch_fails_before_trigger c3Env ["S"] 1 ⟨"u", "f"⟩ "x" (by decide) rfl rfl (by decide)

/-- C2: for every batch submission in which a protocol phase fails — a
network-layer failure or decode failure of the init request, a
network-layer failure of the staging upload, the checksum mismatch, a
network-layer or decode failure of the ingestion trigger, or a
network-layer or decode failure of a poll request — the driver ends that
batch's import job in the corresponding failure outcome (the exception
handler reached, the mismatch message as its cause), its request trace
stops at the failing phase with no phase re-issued (no automatic retry of
the batch), and the caller runs every submitted batch regardless of
earlier outcomes (`runBatches` produces one outcome per batch). -/
theorem phase_failure_aborts_batch (env : ApiEnv) (stmts : List String) (fuel : Nat)
    (hne : stmts ≠ []) :
    (env.initResp = .reqError →
      d1_bulk_import env stmts fuel = some ⟨.requestError, [.initReq]⟩) ∧
    (env.initResp = .decodeError →
      d1_bulk_import env stmts fuel = some ⟨.decodeError, [.initReq]⟩) ∧
    (∀ i, env.initResp = .ok i → env.putResp = .reqError →
      d1_bulk_import env stmts fuel = some ⟨.requestError, [.initReq, .uploadPut]⟩) ∧
    (∀ i raw, env.initResp = .ok i → env.putResp = .ok raw →
      stripDquotes raw ≠ payloadHash stmts →
      d1_bulk_import env stmts fuel =
        some ⟨.unexpectedError ("ETag mismatch during R2 upload. Expected " ++
          payloadHash stmts ++ ", got " ++ stripDquotes raw), [.initReq, .uploadPut]⟩) ∧
    (∀ i raw, env.initResp = .ok i → env.putResp = .ok raw →
      stripDquotes raw = payloadHash stmts → env.ingestResp = .reqError →
      d1_bulk_import env stmts fuel =
        some ⟨.requestError, [.initReq, .uploadPut, .ingestReq]⟩) ∧
    (∀ i raw, env.initResp = .ok i → env.putResp = .ok raw →
      stripDquotes raw = payloadHash stmts → env.ingestResp = .decodeError →
      d1_bulk_import env stmts fuel =
        some ⟨.decodeError, [.initReq, .uploadPut, .ingestReq]⟩) ∧
    (∀ i raw g k, env.initResp = .ok i → env.putResp = .ok raw →
      stripDquotes raw = payloadHash stmts → env.ingestResp = .ok g → k < fuel →
      (∀ j, j < k → nonTerminalAt env.pollResps j) → env.pollResps k = .reqError →
      d1_bulk_import env stmts fuel = some ⟨.requestError,
        [.initReq, .uploadPut, .ingestReq] ++ List.replicate (k + 1) .pollReq⟩) ∧
    (∀ i raw g k, env.initResp = .ok i → env.putResp = .ok raw →
      stripDquotes raw = payloadHash stmts → env.ingestResp = .ok g → k < fuel →
      (∀ j, j < k → nonTerminalAt env.pollResps j) → env.pollResps k = .decodeError →
      d1_bulk_import env stmts fuel = some ⟨.decodeError,
        [.initReq, .uploadPut, .ingestReq] ++ List.replicate (k + 1) .pollReq⟩) ∧
    (∀ jobs, (runBatches fuel jobs).length = jobs.length) := by
  refine ⟨?_, ?_, ?_, ?_, ?_, ?_, ?_, ?_, ?_⟩
  · intro h
    simp [d1_bulk_import, hne, h]
  · intro h
    simp [d1_bulk_import, hne, h]
  · intro i h1 h2
    simp [d1_bulk_import, hne, h1, h2]
  · intro i raw h1 h2 h3
    simp [d1_bulk_import, hne, h1, h2, h3]
  · intro i raw h1 h2 h3 h4
    simp [d1_bulk_import, hne, h1, h2, h3, h4]
  · intro i raw h1 h2 h3 h4
    simp [d1_bulk_import, hne, h1, h2, h3, h4]
  · intro i raw g k h1 h2 h3 h4 hk hj hp
    have hexit := (pollLoop_exit env.pollResps k 0 fuel hk
      (fun j hjlt => by simpa using hj j hjlt)).1 (by simpa using hp)
    simp [d1_bulk_import, hne, h1, h2, h3, h4, hexit]
  · intro i raw g k h1 h2 h3 h4 hk hj hp
    have hexit := (pollLoop_exit env.pollResps k 0 fuel hk
      (fun j hjlt => by simpa using hj j hjlt)).2.1 (by simpa using hp)
    simp [d1_bulk_import, hne, h1, h2, h3, h4, hexit]
  · intro jobs
    induction jobs with
    | nil => rfl
    | cons j rest ih =>
      cases j with
      | mk e b => simp [runBatches, ih]

/-- Witness for C2: a network failure of the init request aborts the
batch with the request-error outcome and a one-request trace. -/
theorem phase_failure_aborts_batch_witness :
    d1_bulk_import c2Env ["S"] 1 = some ⟨.requestError, [.initReq]⟩ :=
  (phase_failure_aborts_batch c2Env ["S"] 1 (by decide)).1 rfl

/-- C5: if every poll response decodes with `success = false` and an error
other than the sentinel, the poll loop never terminates — for every fuel
bound the driver is still polling (there is no failure-status exit, no
maximum iteration count and no timeout besides the sentinel test). -/
theorem poll_loop_never_terminates (env : ApiEnv) (stmts : List String)
    (initData : InitResult) (raw : String) (g : IngestResult)
    (hne : stmts ≠ [])
    (hInit : env.initResp = .ok initData)
    (hPut : env.putResp = .ok raw)
    (hMatch : stripDquotes raw = payloadHash stmts)
    (hIngest : env.ingestResp = .ok g)
    (hpolls : ∀ k, nonTerminalAt env.pollResps k) :
    ∀ fuel, d1_bulk_import env stmts fuel = none := by
  intro fuel
  have hnone := pollLoop_none_of_all_nonterminal env.pollResps hpolls fuel 0
  simp [d1_bulk_import, hne, hInit, hPut, hMatch, hIngest, hnone]

/-- Witness for C5: a hundred in-progress poll responses leave the driver
still polling. -/
theorem poll_loop_never_terminates_witness :
    d1_bulk_import c5Env ["S"] 100 = none :=
  poll_loop_never_terminates c5Env ["S"] ⟨"u", "f"⟩ (payloadHash ["S"]) ⟨"b"⟩
    (by decide) rfl rfl (by decide) rfl
    (by intro k
        exact ⟨⟨false, "in progress"⟩, rfl, rfl, by decide⟩) 100

/-- C1 counterexample: on a first poll response with `success = false` and
the exact sentinel error, the driver's outcome is the failure report
carrying the sentinel text — not the success outcome the claim states. -/
theorem sentinel_break_reports_failure_cex :
    d1_bulk_import c1Env ["S"] 3 =
      some ⟨.importFailed sentinelMsg, [.initReq, .uploadPut, .ingestReq, .pollReq]⟩ ∧
    ImportOutcome.importFailed sentinelMsg ≠ ImportOutcome.importSuccess := by
  constructor
  · decide
  · decide

/-- C1 (amended): when the k-th poll response reports `success = false`
with exactly the sentinel error, the driver does stop polling — the trace
ends after that poll request — but it reports the batch as failed with
the sentinel text, not as succeeded. -/
theorem sentinel_stops_polling_reports_failure (env : ApiEnv) (stmts : List String)
    (fuel k : Nat) (initData : InitResult) (raw : String) (g : IngestResult)
    (hne : stmts ≠ [])
    (hInit : env.initResp = .ok initData)
    (hPut : env.putResp = .ok raw)
    (hMatch : stripDquotes raw = payloadHash stmts)
    (hIngest : env.ingestResp = .ok g)
    (hk : k < fuel)
    (hbefore : ∀ j, j < k → nonTerminalAt env.pollResps j)
    (hsent : env.pollResps k = .ok ⟨false, sentinelMsg⟩) :
    d1_bulk_import env stmts fuel =
      some ⟨.importFailed sentinelMsg,
        [.initReq, .uploadPut, .ingestReq] ++ List.replicate (k + 1) .pollReq⟩ := by
  have hexit := (pollLoop_exit env.pollResps k 0 fuel hk
    (fun j hj => by simpa using hbefore j hj)).2.2 ⟨false, sentinelMsg⟩
    (by simpa using hsent) (Or.inr rfl)
  simp [d1_bulk_import, hne, hInit, hPut, hMatch, hIngest, hexit]

/-- Witness for the amended C1 at the first poll. -/
theorem sentinel_stops_polling_reports_failure_witness :
    d1_bulk_import c1Env ["S"] 3 =
      some ⟨.importFailed sentinelMsg,
        [.initReq, .uploadPut, .ingestReq] ++ List.replicate (0 + 1) .pollReq⟩ :=
  sentinel_stops_polling_reports_failure c1Env ["S"] 3 0 ⟨"u", "f"⟩ (payloadHash ["S"]) ⟨"b"⟩
    (by decide) rfl rfl (by decide) rfl (by decide)
    (fun j hj => absurd hj (Nat.not_lt_zero j)) rfl
